import Mathlib

/-!
Verification of `frontend/scripts/gen-api.py`.

The script resolves filesystem paths relative to its own location
(`pathlib.Path(__file__)`), interpolates them into a fixed command string,
prints that string, and hands it to `os.system`.  We embed:

* `GenApi.Path` — `pathlib.PurePath`-style paths: an absoluteness flag and a
  list of components.  `parent` drops the last component (as `pathlib` does
  for non-root paths; for the root and for `.` the component list is already
  empty and dropping is the identity, again as in `pathlib`), `/` appends a
  single relative component, and `render` is `str()`.
* `GenApi.Effect` — the observable side effects a run could emit: a write to
  standard output, a subordinate shell invocation, and (for the frame
  property) filesystem reads and writes, which the script never performs.
* `GenApi.main` — the script body as a function of its own location and of
  every runtime input available to a process (current working directory,
  command-line arguments, environment, and the outcome the subordinate
  command would have), returning the run's effect trace and exit status.
  The Python source references none of `sys.argv`, `os.environ`, the working
  directory, or the return value of `os.system`, so `main` ignores those
  parameters; a normally completing Python script exits with status 0.
-/

namespace GenApi

/-- A `pathlib`-style pure path: whether it is absolute, and its components. -/
structure Path where
  absolute : Bool
  parts : List String
deriving DecidableEq, Repr

/-- `Path.parent`: drop the final component.  For the filesystem root and for
`.` the component list is empty, so this is the identity, as in `pathlib`. -/
def Path.parent (p : Path) : Path :=
  { p with parts := p.parts.dropLast }

/-- The `/` operator of `pathlib` for a single relative component. -/
def Path.div (p : Path) (s : String) : Path :=
  { p with parts := p.parts ++ [s] }

instance : HDiv Path String Path := ⟨Path.div⟩

/-- `str()` on a path, as used by f-string interpolation. -/
def Path.render (p : Path) : String :=
  if p.absolute then "/" ++ String.intercalate "/" p.parts
  else if p.parts.isEmpty then "." else String.intercalate "/" p.parts

/-- `project_root = script_file.parent.parent`. -/
def project_root (script_file : Path) : Path :=
  script_file.parent.parent

/-- `spec = project_root / "openapi.json"`. -/
def spec (script_file : Path) : Path :=
  project_root script_file / "openapi.json"

/-- `generated = project_root / "src" / "api" / "generated"`. -/
def generated (script_file : Path) : Path :=
  project_root script_file / "src" / "api" / "generated"

/-- `config = generated / "config.json"`. -/
def config (script_file : Path) : Path :=
  generated script_file / "config.json"

/-- The f-string
`f"npx @openapitools/openapi-generator-cli generate -g typescript-fetch -i {spec} -o {generated} -c {config}"`. -/
def command (script_file : Path) : String :=
  "npx @openapitools/openapi-generator-cli generate -g typescript-fetch -i "
    ++ (spec script_file).render
    ++ " -o " ++ (generated script_file).render
    ++ " -c " ++ (config script_file).render

/-- Observable side effects of a run.  The script only prints and invokes the
shell; the filesystem constructors exist so that the frame property "no
filesystem access" is expressible. -/
inductive Effect where
  | print (s : String)
  | execShell (s : String)
  | fsRead (p : Path)
  | fsWrite (p : Path)
deriving DecidableEq, Repr

/-- Whether an effect is a subordinate shell invocation. -/
def Effect.isExec : Effect → Bool
  | .execShell _ => true
  | _ => false

/-- What the subordinate command handed to `os.system` does. -/
inductive SubOutcome where
  | success
  | exitWith (code : Nat)
  | notFound
deriving DecidableEq, Repr

/-- One run of the script: its ordered effect trace and its own exit status. -/
structure Run where
  effects : List Effect
  exitCode : Nat
deriving DecidableEq, Repr

/-- The body of `main()` followed by normal interpreter termination.  The
parameters beyond `script_file` are the runtime inputs available to any
process; the source consults none of them, and it never inspects the result
of `os.system`, so the run's own exit status is the interpreter default 0. -/
def main (script_file : Path) (cwd : Path) (argv : List String)
    (env : List (String × String)) (outcome : SubOutcome) : Run :=
  let cmd := command script_file
  { effects := [Effect.print cmd, Effect.execShell cmd], exitCode := 0 }

/-- A concrete script location whose project root contains a space. -/
def spacedLoc : Path :=
  ⟨true, ["home", "dev x", "scripts", "gen-api.py"]⟩

end GenApi

namespace GenApi

/-- C1: for a script at `P` whose parent's parent is `R`, the three path
arguments interpolated into the constructed command are exactly
`R/openapi.json` (input spec), `R/src/api/generated` (output directory) and
`R/src/api/generated/config.json` (config file), untransformed. -/
theorem c1_paths_are_fixed_offsets_from_root (P R : Path)
    (h : P.parent.parent = R) :
    spec P = R / "openapi.json" ∧
    generated P = R / "src" / "api" / "generated" ∧
    config P = R / "src" / "api" / "generated" / "config.json" ∧
    command P =
      "npx @openapitools/openapi-generator-cli generate -g typescript-fetch -i "
        ++ (R / "openapi.json").render
        ++ " -o " ++ (R / "src" / "api" / "generated").render
        ++ " -c " ++ (R / "src" / "api" / "generated" / "config.json").render := by
  subst h
  exact ⟨rfl, rfl, rfl, rfl⟩

/-- Witness for C1 at a concrete script location. -/
theorem c1_witness :
    spec ⟨true, ["r", "scripts", "gen-api.py"]⟩ =
      (⟨true, ["r"]⟩ : Path) / "openapi.json" ∧
    generated ⟨true, ["r", "scripts", "gen-api.py"]⟩ =
      (⟨true, ["r"]⟩ : Path) / "src" / "api" / "generated" ∧
    config ⟨true, ["r", "scripts", "gen-api.py"]⟩ =
      (⟨true, ["r"]⟩ : Path) / "src" / "api" / "generated" / "config.json" ∧
    command ⟨true, ["r", "scripts", "gen-api.py"]⟩ =
      "npx @openapitools/openapi-generator-cli generate -g typescript-fetch -i "
        ++ ((⟨true, ["r"]⟩ : Path) / "openapi.json").render
        ++ " -o " ++ ((⟨true, ["r"]⟩ : Path) / "src" / "api" / "generated").render
        ++ " -c " ++ ((⟨true, ["r"]⟩ : Path) / "src" / "api" / "generated" / "config.json").render :=
  c1_paths_are_fixed_offsets_from_root ⟨true, ["r", "scripts", "gen-api.py"]⟩
    ⟨true, ["r"]⟩ (by decide)

/-- C2: on every run — whatever the working directory, arguments, environment
or subordinate outcome — the printed and executed command is the fixed shape
`npx @openapitools/openapi-generator-cli generate -g typescript-fetch -i
<spec> -o <output> -c <config>`. -/
theorem c2_command_has_fixed_shape (sf cwd : Path) (argv : List String)
    (env : List (String × String)) (o : SubOutcome) :
    (main sf cwd argv env o).effects =
      [Effect.print (command sf), Effect.execShell (command sf)] ∧
    command sf =
      "npx @openapitools/openapi-generator-cli generate -g typescript-fetch -i "
        ++ (spec sf).render ++ " -o " ++ (generated sf).render
        ++ " -c " ++ (config sf).render :=
  ⟨rfl, rfl⟩

/-- C3: whatever the subordinate command does — success, any non-zero exit
code, or command not found — the script's own exit status is 0, the same on
every run. -/
theorem c3_exit_status_ignores_subordinate (sf cwd : Path) (argv : List String)
    (env : List (String × String)) (o o' : SubOutcome) :
    (main sf cwd argv env o).exitCode = 0 ∧
    (main sf cwd argv env o).exitCode = (main sf cwd argv env o').exitCode :=
  ⟨rfl, rfl⟩

/-- C4: in every run's effect trace the print of the fully-substituted
command occurs at an earlier position than the subordinate execution. -/
theorem c4_print_precedes_execution (sf cwd : Path) (argv : List String)
    (env : List (String × String)) (o : SubOutcome) :
    ∃ i j : Nat, i < j ∧
      (main sf cwd argv env o).effects[i]? = some (Effect.print (command sf)) ∧
      (main sf cwd argv env o).effects[j]? = some (Effect.execShell (command sf)) :=
  ⟨0, 1, Nat.zero_lt_one, rfl, rfl⟩

/-- C5: two runs from the same script location with different current working
directories produce identical runs: identical resolved paths, command string,
effect trace and exit status. -/
theorem c5_independent_of_working_directory (sf cwd₁ cwd₂ : Path)
    (hne : cwd₁ ≠ cwd₂) (argv : List String)
    (env : List (String × String)) (o : SubOutcome) :
    main sf cwd₁ argv env o = main sf cwd₂ argv env o :=
  rfl

/-- C6: each resolved path is interpolated into the command as a literal
substring, and at a concrete script location whose project root contains a
space the command contains that space with no double quote, backslash or
single quote anywhere in it. -/
theorem c6_paths_interpolated_literally :
    (∀ sf : Path, ∃ p q : String, command sf = p ++ (spec sf).render ++ q) ∧
    (∀ sf : Path, ∃ p q : String, command sf = p ++ (generated sf).render ++ q) ∧
    (∀ sf : Path, ∃ p q : String, command sf = p ++ (config sf).render ++ q) ∧
    command spacedLoc =
      "npx @openapitools/openapi-generator-cli generate -g typescript-fetch -i /home/dev x/openapi.json -o /home/dev x/src/api/generated -c /home/dev x/src/api/generated/config.json" ∧
    Char.ofNat 34 ∉ (command spacedLoc).data ∧
    Char.ofNat 92 ∉ (command spacedLoc).data ∧
    Char.ofNat 39 ∉ (command spacedLoc).data := by
  refine ⟨?_, ?_, ?_, rfl, by decide, by decide, by decide⟩
  · intro sf
    exact ⟨"npx @openapitools/openapi-generator-cli generate -g typescript-fetch -i ",
      " -o " ++ (generated sf).render ++ (" -c " ++ (config sf).render),
      by simp [command, String.append_assoc]⟩
  · intro sf
    exact ⟨"npx @openapitools/openapi-generator-cli generate -g typescript-fetch -i "
        ++ (spec sf).render ++ " -o ",
      " -c " ++ (config sf).render,
      by simp [command, String.append_assoc]⟩
  · intro sf
    exact ⟨"npx @openapitools/openapi-generator-cli generate -g typescript-fetch -i "
        ++ (spec sf).render ++ " -o " ++ (generated sf).render ++ " -c ",
      "",
      by simp [command, String.append_assoc]⟩

/-- C7: two runs from the same location and working directory that differ
only in command-line arguments or environment variables are identical runs:
same printed command, same executed command, same exit status. -/
theorem c7_independent_of_args_and_env (sf cwd : Path)
    (argv₁ argv₂ : List String) (env₁ env₂ : List (String × String))
    (o : SubOutcome) :
    main sf cwd argv₁ env₁ o = main sf cwd argv₂ env₂ o :=
  rfl

/-- C8: every run issues exactly one subordinate invocation, and that
invocation is the final effect of the run: the run ends only after it
completes, with no retries or further invocations. -/
theorem c8_single_synchronous_invocation (sf cwd : Path) (argv : List String)
    (env : List (String × String)) (o : SubOutcome) :
    ((main sf cwd argv env o).effects.countP Effect.isExec) = 1 ∧
    (main sf cwd argv env o).effects.getLast? =
      some (Effect.execShell (command sf)) :=
  ⟨rfl, rfl⟩

/-- C9: the config argument is the output directory extended by
`config.json`, the input-spec argument is the project root extended by
`openapi.json`, and all three path arguments extend the project root's
component list. -/
theorem c9_shared_root_relations (sf : Path) :
    config sf = generated sf / "config.json" ∧
    spec sf = project_root sf / "openapi.json" ∧
    (spec sf).parts = (project_root sf).parts ++ ["openapi.json"] ∧
    (generated sf).parts =
      (project_root sf).parts ++ ["src", "api", "generated"] ∧
    (config sf).parts =
      (project_root sf).parts ++ ["src", "api", "generated", "config.json"] := by
  refine ⟨rfl, rfl, rfl, ?_, ?_⟩ <;>
    simp [spec, generated, config, HDiv.hDiv, Path.div]

/-- C10: the script touches no files: its whole effect trace is one write of
the command string to standard output followed by one subordinate shell
invocation, with no filesystem read or write of any path. -/
theorem c10_no_filesystem_access (sf cwd : Path) (argv : List String)
    (env : List (String × String)) (o : SubOutcome) :
    (main sf cwd argv env o).effects =
      [Effect.print (command sf), Effect.execShell (command sf)] ∧
    ∀ p : Path, Effect.fsRead p ∉ (main sf cwd argv env o).effects ∧
      Effect.fsWrite p ∉ (main sf cwd argv env o).effects := by
  refine ⟨rfl, fun p => ⟨?_, ?_⟩⟩ <;> simp [main]

/-- Witness for C5 at two concrete distinct working directories. -/
theorem c5_witness :
    main spacedLoc ⟨true, ["a"]⟩ [] [] SubOutcome.success =
      main spacedLoc ⟨true, ["b"]⟩ [] [] SubOutcome.success :=
  c5_independent_of_working_directory spacedLoc ⟨true, ["a"]⟩ ⟨true, ["b"]⟩
    (by decide) [] [] SubOutcome.success

end GenApi
